import Mathlib

/-!
Verification development for the text-column component of the table
component-development kit.

The component under study is `CdkTextColumn` (text-column source file): a
convenience column that resolves a default header text and data accessor at
initialization, registers its owned column definition with an enclosing host
table, and deregisters it on teardown.

Shallow embedding conventions:
* JS `undefined`/`null`/string distinctions that the code's emptiness checks
  rely on are modelled explicitly (`JsStr`, `JsAccessor`).
* Field mutation is modelled by explicit state passing: `ngOnInit` maps a
  `World` (component state plus optional host table state) to the post-state
  together with the thrown error, if any.  A thrown error aborts the remaining
  statements but keeps the field mutations already performed, as in JS.
* The host table and the column-definition record live outside the available
  sources; they are modelled from the spec (doc comments say so).
-/

/-- JS runtime values stored in a row-data object. -/
inductive Val
  | undefined
  | vnull
  | vnat (n : Nat)
  | vstr (s : String)
deriving DecidableEq, Repr

/-- A row-data object: a finite map from property names to values. -/
abbrev RowData := List (String × Val)

/-- A string-typed field of the component that may be JS `undefined`, JS
`null`, or an actual string. -/
inductive JsStr
  | undef
  | null
  | str (s : String)
deriving DecidableEq, Repr

/-- The `dataAccessor` field: JS `undefined`, JS `null`, or a function. -/
inductive JsAccessor
  | undef
  | null
  | fn (f : RowData → String → Val)

/-- JS truthiness of the `dataAccessor` field: functions are always truthy,
`undefined` and `null` are falsy.  This is the test `!this.dataAccessor`
performs (negated). -/
def JsAccessor.isTruthy : JsAccessor → Bool
  | .fn _ => true
  | _ => false

/-- Modelled from the spec: a cell template marker (`CdkCellDef`, declared in
the cell module, which is not among the sources).  Inert; identity only. -/
structure CdkCellDef where
  id : Nat
deriving DecidableEq, Repr

/-- Modelled from the spec: a header-cell template marker
(`CdkHeaderCellDef`, declared in the cell module, not among the sources). -/
structure CdkHeaderCellDef where
  id : Nat
deriving DecidableEq, Repr

/-- Modelled from the spec: `CdkColumnDef` (cell module, not among the
sources) — a named descriptor binding a column name to its header-cell and
cell templates.  The template slots start unset and are pushed in by the text
column during initialization. -/
structure CdkColumnDef where
  name : String
  cell : Option CdkCellDef
  headerCell : Option CdkHeaderCellDef
deriving DecidableEq, Repr

/-- Modelled from the spec: the host table's column registry — the ordered,
name-keyed set of registered column definitions (insertion order is
significant). -/
structure CdkTable where
  columnDefs : List CdkColumnDef
deriving DecidableEq, Repr

/-- Modelled from the spec: `addColumnDef(def)` inserts the definition into
the registry (insertion order preserved). -/
def CdkTable.addColumnDef (t : CdkTable) (d : CdkColumnDef) : CdkTable :=
  ⟨t.columnDefs ++ [d]⟩

/-- Modelled from the spec: `removeColumnDef(def)` removes the registry entry
matching the definition (a removed definition no longer influences
rendering). -/
def CdkTable.removeColumnDef (t : CdkTable) (d : CdkColumnDef) : CdkTable :=
  ⟨t.columnDefs.erase d⟩

/-- `TextColumnOptions`: optional default header-text transform and default
data accessor. -/
structure TextColumnOptions where
  defaultHeaderTextTransform : Option (String → String)
  defaultDataAccessor : Option (RowData → String → Val)

/-- The empty options object `{}`. -/
def emptyOptions : TextColumnOptions := { defaultHeaderTextTransform := none, defaultDataAccessor := none }

/-- Errors the component can throw: the missing-parent-table usage error
produced by `getTableTextColumnMissingParentTableError`, and a JS `TypeError`
(calling a method of `undefined`). -/
inductive TcError
  | missingParentTable
  | typeError
deriving DecidableEq, Repr

/-- The built-in fallback accessor `(data, name) => data[name]`: JS property
lookup, yielding `undefined` when the property is absent. -/
def defaultDataAccessorFn : RowData → String → Val :=
  fun d n => (d.lookup n).getD Val.undefined

/-- The `CdkTextColumn` component state.  `cell` and `headerCell` are the
statically-resolved view children; `columnDef` is the owned column
definition; `_options` is already normalized by the constructor
(`this._options = _options || {}`), hence not optional. -/
structure CdkTextColumn where
  _name : String
  headerText : JsStr
  dataAccessor : JsAccessor
  justify : String
  columnDef : CdkColumnDef
  cell : CdkCellDef
  headerCell : CdkHeaderCellDef
  _options : TextColumnOptions

/-- The `name` getter: returns the backing field `_name`. -/
def CdkTextColumn.name (c : CdkTextColumn) : String := c._name

/-- The `name` setter: stores the value in `_name` and propagates it onto the
owned column definition's `name` in the same assignment. -/
def CdkTextColumn.setName (c : CdkTextColumn) (v : String) : CdkTextColumn :=
  { c with _name := v, columnDef := { c.columnDef with name := v } }

/-- The constructor: fields start at their declaration defaults (`justify`
defaults to start; `name`, `headerText`, `dataAccessor` are still unset) and
the injected options are normalized by `this._options = _options || {}`.  The
optional injected host table is modelled separately in `World`. -/
def CdkTextColumn.construct (options : Option TextColumnOptions) : CdkTextColumn :=
  { _name := ""
    headerText := JsStr.undef
    dataAccessor := JsAccessor.undef
    justify := "start"
    columnDef := { name := "", cell := none, headerCell := none }
    cell := { id := 0 }
    headerCell := { id := 1 }
    _options := options.getD emptyOptions }

/-- `_createDefaultHeaderText`: use the options' transform when provided,
otherwise `this.name[0].toUpperCase() + this.name.slice(1)`.  When the name
is empty, `this.name[0]` is `undefined` and calling `toUpperCase` on it
throws a `TypeError`.  (The constructor normalizes `_options`, so the
`this._options &&` guard is just the transform check.) -/
def CdkTextColumn._createDefaultHeaderText (c : CdkTextColumn) : Except TcError String :=
  match c._options.defaultHeaderTextTransform with
  | some f => Except.ok (f c.name)
  | none =>
    match c.name.data with
    | [] => Except.error TcError.typeError
    | ch :: rest => Except.ok (String.mk (ch.toUpper :: rest))

/-- Combined state of one text column and its (optional) host table. -/
structure World where
  comp : CdkTextColumn
  table : Option CdkTable

/-- First statement of `ngOnInit`: `if (this.headerText === undefined)
this.headerText = this._createDefaultHeaderText();`.  A thrown error aborts
before the assignment lands. -/
def CdkTextColumn.resolveHeaderText (c : CdkTextColumn) : CdkTextColumn × Option TcError :=
  match c.headerText with
  | JsStr.undef =>
    match c._createDefaultHeaderText with
    | Except.ok h => ({ c with headerText := JsStr.str h }, none)
    | Except.error e => (c, some e)
  | _ => (c, none)

/-- Second statement of `ngOnInit`: `if (!this.dataAccessor)
this.dataAccessor = this._options.defaultDataAccessor || ((data, name) =>
data[name]);`. -/
def CdkTextColumn.resolveDataAccessor (c : CdkTextColumn) : CdkTextColumn :=
  if c.dataAccessor.isTruthy then c
  else { c with dataAccessor := JsAccessor.fn (c._options.defaultDataAccessor.getD defaultDataAccessorFn) }

/-- `ngOnInit`: default the header text, default the data accessor, then — if
a host table is present — push the view-child templates onto the owned column
definition and register it with the table; otherwise throw the
missing-parent-table error.  Returns the post-state and the thrown error (if
any); mutations performed before a throw persist. -/
def CdkTextColumn.ngOnInit (w : World) : World × Option TcError :=
  match CdkTextColumn.resolveHeaderText w.comp with
  | (c, some e) => ({ w with comp := c }, some e)
  | (c1, none) =>
    let c2 := CdkTextColumn.resolveDataAccessor c1
    match w.table with
    | some t =>
      let cd := { c2.columnDef with cell := some c2.cell, headerCell := some c2.headerCell }
      ({ comp := { c2 with columnDef := cd }, table := some (t.addColumnDef cd) }, none)
    | none => ({ w with comp := c2 }, some TcError.missingParentTable)

/-- `ngOnDestroy`: if a host table is present, deregister the owned column
definition from it; otherwise do nothing. -/
def CdkTextColumn.ngOnDestroy (w : World) : World :=
  match w.table with
  | some t => { w with table := some (t.removeColumnDef w.comp.columnDef) }
  | none => w

/-- Spec-side expected default header: the name with only its first character
upper-cased, the rest unchanged. -/
def capitalizeFirst (s : String) : String :=
  match s.data with
  | [] => ""
  | ch :: rest => String.mk (ch.toUpper :: rest)

/-- Spec-side expected resolved header text: the configured transform applied
to the name when provided, otherwise `capitalizeFirst` of the name. -/
def defaultHeaderFor (c : CdkTextColumn) : String :=
  match c._options.defaultHeaderTextTransform with
  | some f => f c.name
  | none => capitalizeFirst c.name

/-- A freshly constructed component with no injected options. -/
def baseComp : CdkTextColumn := CdkTextColumn.construct none

/-- A host table with an empty column registry. -/
def emptyTable : CdkTable := { columnDefs := [] }

/-- Concrete state: fresh component (name never assigned, header text unset),
no host table. -/
def wNoHeader : World := { comp := baseComp, table := none }

/-- Concrete state: component with an explicit header text, no host table. -/
def wNoTable : World := { comp := { baseComp with headerText := JsStr.str "H" }, table := none }

/-- Concrete state: component named `userId` inside an empty host table. -/
def wUserId : World := { comp := baseComp.setName "userId", table := some emptyTable }

/-- Concrete state: component named `id` inside an empty host table. -/
def wId : World := { comp := baseComp.setName "id", table := some emptyTable }

/-- Concrete row data `\x7b id: 42, name: "Ann" \x7d`. -/
def rowAnn : RowData := [("id", Val.vnat 42), ("name", Val.vstr "Ann")]

/-- Concrete state: component with an explicitly empty header text and a
`null` data accessor, inside an empty host table. -/
def wEmptyHeader : World :=
  { comp := { baseComp.setName "x" with headerText := JsStr.str "", dataAccessor := JsAccessor.null }
    table := some emptyTable }

/-- The header-text step never touches the owned column definition. -/
theorem rh_columnDef (c : CdkTextColumn) :
    (CdkTextColumn.resolveHeaderText c).1.columnDef = c.columnDef := by
  unfold CdkTextColumn.resolveHeaderText
  cases c.headerText with
  | undef => cases c._createDefaultHeaderText with
    | ok h => rfl
    | error e => rfl
  | null => rfl
  | str s => rfl

/-- The header-text step never touches the cell view child. -/
theorem rh_cell (c : CdkTextColumn) :
    (CdkTextColumn.resolveHeaderText c).1.cell = c.cell := by
  unfold CdkTextColumn.resolveHeaderText
  cases c.headerText with
  | undef => cases c._createDefaultHeaderText with
    | ok h => rfl
    | error e => rfl
  | null => rfl
  | str s => rfl

/-- The header-text step never touches the header-cell view child. -/
theorem rh_headerCell (c : CdkTextColumn) :
    (CdkTextColumn.resolveHeaderText c).1.headerCell = c.headerCell := by
  unfold CdkTextColumn.resolveHeaderText
  cases c.headerText with
  | undef => cases c._createDefaultHeaderText with
    | ok h => rfl
    | error e => rfl
  | null => rfl
  | str s => rfl

/-- The header-text step never touches the data accessor. -/
theorem rh_dataAccessor (c : CdkTextColumn) :
    (CdkTextColumn.resolveHeaderText c).1.dataAccessor = c.dataAccessor := by
  unfold CdkTextColumn.resolveHeaderText
  cases c.headerText with
  | undef => cases c._createDefaultHeaderText with
    | ok h => rfl
    | error e => rfl
  | null => rfl
  | str s => rfl

/-- The header-text step never touches the options. -/
theorem rh_options (c : CdkTextColumn) :
    (CdkTextColumn.resolveHeaderText c).1._options = c._options := by
  unfold CdkTextColumn.resolveHeaderText
  cases c.headerText with
  | undef => cases c._createDefaultHeaderText with
    | ok h => rfl
    | error e => rfl
  | null => rfl
  | str s => rfl

/-- The data-accessor step never touches the owned column definition. -/
theorem rda_columnDef (c : CdkTextColumn) :
    (CdkTextColumn.resolveDataAccessor c).columnDef = c.columnDef := by
  unfold CdkTextColumn.resolveDataAccessor
  split <;> rfl

/-- The data-accessor step never touches the cell view child. -/
theorem rda_cell (c : CdkTextColumn) :
    (CdkTextColumn.resolveDataAccessor c).cell = c.cell := by
  unfold CdkTextColumn.resolveDataAccessor
  split <;> rfl

/-- The data-accessor step never touches the header-cell view child. -/
theorem rda_headerCell (c : CdkTextColumn) :
    (CdkTextColumn.resolveDataAccessor c).headerCell = c.headerCell := by
  unfold CdkTextColumn.resolveDataAccessor
  split <;> rfl

/-- The data-accessor step never touches the header text. -/
theorem rda_headerText (c : CdkTextColumn) :
    (CdkTextColumn.resolveDataAccessor c).headerText = c.headerText := by
  unfold CdkTextColumn.resolveDataAccessor
  split <;> rfl

/-- After the data-accessor step, the accessor is always a function (truthy):
either it already was one, or the default was just assigned. -/
theorem rda_truthy (c : CdkTextColumn) :
    ((CdkTextColumn.resolveDataAccessor c).dataAccessor).isTruthy = true := by
  unfold CdkTextColumn.resolveDataAccessor
  split
  · assumption
  · rfl

/-- When a transform is configured or the name is non-empty,
`_createDefaultHeaderText` succeeds and returns the expected default. -/
theorem createDefault_ok (c : CdkTextColumn)
    (h : c._options.defaultHeaderTextTransform ≠ none ∨ c.name ≠ "") :
    CdkTextColumn._createDefaultHeaderText c = Except.ok (defaultHeaderFor c) := by
  unfold CdkTextColumn._createDefaultHeaderText defaultHeaderFor capitalizeFirst
  cases htr : c._options.defaultHeaderTextTransform with
  | some f => rfl
  | none =>
    cases hnm : c.name.data with
    | cons ch rest => rfl
    | nil =>
      exfalso
      rcases h with h | h
      · exact h htr
      · exact h (String.ext hnm)

/-- The header-text step succeeds (throws nothing) whenever the header text is
already set, a transform is configured, or the name is non-empty. -/
theorem rh_no_fault (c : CdkTextColumn)
    (h : c.headerText ≠ JsStr.undef ∨ c._options.defaultHeaderTextTransform ≠ none ∨ c.name ≠ "") :
    (CdkTextColumn.resolveHeaderText c).2 = none := by
  cases hh : c.headerText with
  | undef =>
    have hsucc : c._options.defaultHeaderTextTransform ≠ none ∨ c.name ≠ "" := by
      rcases h with h | h
      · exact absurd hh h
      · exact h
    simp [CdkTextColumn.resolveHeaderText, hh, createDefault_ok c hsucc]
  | null => simp [CdkTextColumn.resolveHeaderText, hh]
  | str s => simp [CdkTextColumn.resolveHeaderText, hh]

/-- When the header-text step succeeds, the resulting header text is never
`undefined`: either it was already set, or the computed default was
assigned. -/
theorem rh_success_ne_undef (c : CdkTextColumn)
    (h : (CdkTextColumn.resolveHeaderText c).2 = none) :
    (CdkTextColumn.resolveHeaderText c).1.headerText ≠ JsStr.undef := by
  cases hh : c.headerText with
  | undef =>
    cases hc : c._createDefaultHeaderText with
    | ok s => simp [CdkTextColumn.resolveHeaderText, hh, hc]
    | error e => simp [CdkTextColumn.resolveHeaderText, hh, hc] at h
  | null => simp [CdkTextColumn.resolveHeaderText, hh]
  | str s => simp [CdkTextColumn.resolveHeaderText, hh]

/-- The header-text step either succeeds or throws the `TypeError`; it never
throws the missing-parent-table error itself. -/
theorem rh_err_cases (c : CdkTextColumn) :
    (CdkTextColumn.resolveHeaderText c).2 = none ∨
    (CdkTextColumn.resolveHeaderText c).2 = some TcError.typeError := by
  cases hh : c.headerText with
  | undef =>
    cases hc : c._createDefaultHeaderText with
    | ok s => left; simp [CdkTextColumn.resolveHeaderText, hh, hc]
    | error e =>
      right
      have he : e = TcError.typeError := by
        unfold CdkTextColumn._createDefaultHeaderText at hc
        cases htr : c._options.defaultHeaderTextTransform with
        | some f => simp [htr] at hc
        | none =>
          cases hnm : c.name.data with
          | nil =>
            simp [htr, hnm] at hc
            exact hc.symm
          | cons ch rest => simp [htr, hnm] at hc
      simp [CdkTextColumn.resolveHeaderText, hh, hc, he]
  | null => left; simp [CdkTextColumn.resolveHeaderText, hh]
  | str s => left; simp [CdkTextColumn.resolveHeaderText, hh]

/-- `ngOnInit` leaves the header text exactly as the header-text step left it
(the later statements never touch it), whatever the table situation. -/
theorem init_comp_headerText (w : World) (c1 : CdkTextColumn)
    (hrh : CdkTextColumn.resolveHeaderText w.comp = (c1, none)) :
    (CdkTextColumn.ngOnInit w).1.comp.headerText = c1.headerText := by
  unfold CdkTextColumn.ngOnInit
  rw [hrh]
  cases ht : w.table with
  | some t => simp [rda_headerText]
  | none => simp [rda_headerText]

/-- When the header-text step succeeds and the accessor field is falsy,
`ngOnInit` resolves the accessor to the configured default, or to the
built-in property-lookup fallback when none is configured. -/
theorem init_resolves_dataAccessor (w : World)
    (hrh : (CdkTextColumn.resolveHeaderText w.comp).2 = none)
    (hfalsy : w.comp.dataAccessor.isTruthy = false) :
    (CdkTextColumn.ngOnInit w).1.comp.dataAccessor
      = JsAccessor.fn (w.comp._options.defaultDataAccessor.getD defaultDataAccessorFn) := by
  rcases hp : CdkTextColumn.resolveHeaderText w.comp with ⟨c1, err⟩
  have he : err = none := by rw [hp] at hrh; exact hrh
  subst he
  have hda : c1.dataAccessor = w.comp.dataAccessor := by
    have h2 := rh_dataAccessor w.comp
    rw [hp] at h2
    exact h2
  have hop : c1._options = w.comp._options := by
    have h2 := rh_options w.comp
    rw [hp] at h2
    exact h2
  have hres : CdkTextColumn.resolveDataAccessor c1
      = { c1 with dataAccessor := JsAccessor.fn (w.comp._options.defaultDataAccessor.getD defaultDataAccessorFn) } := by
    simp [CdkTextColumn.resolveDataAccessor, hda, hfalsy, hop]
  unfold CdkTextColumn.ngOnInit
  rw [hp]
  cases ht : w.table with
  | some t => simp [hres]
  | none => simp [hres]

/-- C2: for every component state and every string `v`, assigning `v` through
the `name` setter makes both the `name` getter and the owned column
definition's `name` read back `v` immediately — the propagation happens in
the assignment itself. -/
theorem setName_read_after_write (c : CdkTextColumn) (v : String) :
    (c.setName v).name = v ∧ (c.setName v).columnDef.name = v :=
  ⟨rfl, rfl⟩

/-- C7: constructing with absent injected options yields exactly the state
obtained with the empty options object, so all subsequent behavior
(header-text defaulting and data-accessor defaulting under `ngOnInit`, for
any assigned name and any table situation) is identical. -/
theorem construct_absent_options_eq_empty :
    CdkTextColumn.construct none = CdkTextColumn.construct (some emptyOptions)
    ∧ ∀ (n : String) (t : Option CdkTable),
        CdkTextColumn.ngOnInit { comp := (CdkTextColumn.construct none).setName n, table := t }
          = CdkTextColumn.ngOnInit { comp := (CdkTextColumn.construct (some emptyOptions)).setName n, table := t } :=
  ⟨rfl, fun _ _ => rfl⟩

/-- C1 (counterexample): with no host table, header text unset, no transform
configured and the name never assigned, `ngOnInit` throws the `TypeError`
arising in the header-default computation — not the missing-parent-table
error — so the claim fails as universally stated. -/
theorem ngOnInit_no_table_typeError :
    (CdkTextColumn.ngOnInit wNoHeader).2 = some TcError.typeError
    ∧ (CdkTextColumn.ngOnInit wNoHeader).2 ≠ some TcError.missingParentTable := by
  constructor
  · rfl
  · decide

/-- C1 (amended): for every component whose host table is absent and whose
header-text defaulting does not itself fault (header text already set, or a
transform configured, or a non-empty name), `ngOnInit` throws the
missing-parent-table error and registers nothing: the table side of the state
stays absent. -/
theorem ngOnInit_missing_table_error (w : World) (htab : w.table = none)
    (hnf : w.comp.headerText ≠ JsStr.undef ∨
           w.comp._options.defaultHeaderTextTransform ≠ none ∨ w.comp.name ≠ "") :
    (CdkTextColumn.ngOnInit w).2 = some TcError.missingParentTable
    ∧ (CdkTextColumn.ngOnInit w).1.table = none := by
  have h2 := rh_no_fault w.comp hnf
  rcases hp : CdkTextColumn.resolveHeaderText w.comp with ⟨c1, err⟩
  rw [hp] at h2
  simp only [] at h2
  subst h2
  constructor <;> simp [CdkTextColumn.ngOnInit, hp, htab]

/-- C1 (witness): a component with an explicit header text and no host table
hits the missing-parent-table error. -/
theorem ngOnInit_missing_table_error_witness :
    (CdkTextColumn.ngOnInit wNoTable).2 = some TcError.missingParentTable :=
  (ngOnInit_missing_table_error wNoTable rfl (Or.inl (by decide))).1

/-- C8: with no transform configured and an empty (never-assigned) name, the
default header computation faults with a `TypeError` (`this.name[0]` is
`undefined`), and `ngOnInit` run with the header text unset propagates that
fault instead of producing a header text. -/
theorem createDefaultHeaderText_empty_name_faults (w : World)
    (hname : w.comp.name = "")
    (htrans : w.comp._options.defaultHeaderTextTransform = none)
    (hheader : w.comp.headerText = JsStr.undef) :
    CdkTextColumn._createDefaultHeaderText w.comp = Except.error TcError.typeError
    ∧ (CdkTextColumn.ngOnInit w).2 = some TcError.typeError := by
  have hd : w.comp.name.data = [] := by rw [hname]
  have h1 : CdkTextColumn._createDefaultHeaderText w.comp = Except.error TcError.typeError := by
    simp [CdkTextColumn._createDefaultHeaderText, htrans, hd]
  refine ⟨h1, ?_⟩
  have hrh : CdkTextColumn.resolveHeaderText w.comp = (w.comp, some TcError.typeError) := by
    simp [CdkTextColumn.resolveHeaderText, hheader, h1]
  simp [CdkTextColumn.ngOnInit, hrh]

/-- C8 (witness): the fresh component (empty name, no options, no header
text) hits the `TypeError` in `ngOnInit`. -/
theorem createDefaultHeaderText_empty_name_faults_witness :
    wNoHeader.comp.name = ""
    ∧ (CdkTextColumn.ngOnInit wNoHeader).2 = some TcError.typeError :=
  ⟨rfl, (createDefaultHeaderText_empty_name_faults wNoHeader rfl rfl rfl).2⟩

/-- C3: if the header text is undefined when `ngOnInit` runs (and the default
computation does not hit the empty-name fault), the resulting header text is
the configured `defaultHeaderTextTransform` applied to the name when one is
configured, and otherwise the name with only its first character upper-cased;
a header text that was already set is left unchanged. -/
theorem ngOnInit_header_default (w : World)
    (hsucc : w.comp._options.defaultHeaderTextTransform ≠ none ∨ w.comp.name ≠ "") :
    (w.comp.headerText = JsStr.undef →
       (CdkTextColumn.ngOnInit w).1.comp.headerText = JsStr.str (defaultHeaderFor w.comp))
    ∧ (w.comp.headerText ≠ JsStr.undef →
       (CdkTextColumn.ngOnInit w).1.comp.headerText = w.comp.headerText) := by
  constructor
  · intro hu
    have hrh : CdkTextColumn.resolveHeaderText w.comp
        = ({ w.comp with headerText := JsStr.str (defaultHeaderFor w.comp) }, none) := by
      simp [CdkTextColumn.resolveHeaderText, hu, createDefault_ok w.comp hsucc]
    rw [init_comp_headerText w _ hrh]
  · intro hne
    have hrh : CdkTextColumn.resolveHeaderText w.comp = (w.comp, none) := by
      cases hh : w.comp.headerText with
      | undef => exact absurd hh hne
      | null => simp [CdkTextColumn.resolveHeaderText, hh]
      | str s => simp [CdkTextColumn.resolveHeaderText, hh]
    rw [init_comp_headerText w _ hrh]

/-- C3 (witness): name `userId`, no options, header text unset: the
initialized header text is `UserId`. -/
theorem ngOnInit_header_default_witness :
    wUserId.comp.headerText = JsStr.undef
    ∧ (CdkTextColumn.ngOnInit wUserId).1.comp.headerText = JsStr.str "UserId" := by
  refine ⟨rfl, ?_⟩
  have h := (ngOnInit_header_default wUserId (Or.inr (by decide))).1 rfl
  rw [h]
  decide

/-- C4: if the data accessor is unset (falsy) when `ngOnInit` runs and the
header step does not fault, the initialized accessor is the configured
`defaultDataAccessor` when provided, and otherwise the property-lookup
fallback `(rowData, name) => rowData[name]`. -/
theorem ngOnInit_dataAccessor_default (w : World)
    (hfalsy : w.comp.dataAccessor.isTruthy = false)
    (hnf : w.comp.headerText ≠ JsStr.undef ∨
           w.comp._options.defaultHeaderTextTransform ≠ none ∨ w.comp.name ≠ "") :
    (CdkTextColumn.ngOnInit w).1.comp.dataAccessor
      = JsAccessor.fn (w.comp._options.defaultDataAccessor.getD defaultDataAccessorFn) :=
  init_resolves_dataAccessor w (rh_no_fault w.comp hnf) hfalsy

/-- C4 (witness): no accessors configured, column name `id`: the resolved
accessor is the built-in fallback and returns `42` on the row
`\x7b id: 42, name: "Ann" \x7d`. -/
theorem ngOnInit_dataAccessor_default_witness :
    JsAccessor.isTruthy wId.comp.dataAccessor = false
    ∧ (CdkTextColumn.ngOnInit wId).1.comp.dataAccessor = JsAccessor.fn defaultDataAccessorFn
    ∧ defaultDataAccessorFn rowAnn "id" = Val.vnat 42 := by
  refine ⟨rfl, ?_, by decide⟩
  have h := ngOnInit_dataAccessor_default wId rfl (by right; right; decide)
  rw [h]
  rfl

/-- C6: on teardown with a host table present, the component deregisters its
owned column definition from it via `removeColumnDef`; with no host table,
`ngOnDestroy` changes nothing (and, being total, throws nothing). -/
theorem ngOnDestroy_spec (w : World) :
    (∀ t, w.table = some t →
        CdkTextColumn.ngOnDestroy w
          = { comp := w.comp, table := some (CdkTable.removeColumnDef t w.comp.columnDef) })
    ∧ (w.table = none → CdkTextColumn.ngOnDestroy w = w) := by
  constructor
  · intro t ht
    simp [CdkTextColumn.ngOnDestroy, ht]
  · intro ht
    simp [CdkTextColumn.ngOnDestroy, ht]

/-- C6 (witness): with no host table, teardown is the identity. -/
theorem ngOnDestroy_spec_witness :
    CdkTextColumn.ngOnDestroy wNoTable = wNoTable :=
  (ngOnDestroy_spec wNoTable).2 rfl

/-- C5: for every registry state and every component with a present host
table whose (freshly populated) column definition is not already registered,
a successful `ngOnInit` followed by `ngOnDestroy` leaves the host table's
column registry exactly as it was before registration. -/
theorem init_destroy_roundtrip (w : World) (t : CdkTable)
    (ht : w.table = some t)
    (hfresh : ({ w.comp.columnDef with cell := some w.comp.cell, headerCell := some w.comp.headerCell } : CdkColumnDef) ∉ t.columnDefs)
    (hok : (CdkTextColumn.ngOnInit w).2 = none) :
    (CdkTextColumn.ngOnDestroy (CdkTextColumn.ngOnInit w).1).table = w.table := by
  rcases hp : CdkTextColumn.resolveHeaderText w.comp with ⟨c1, err⟩
  cases err with
  | some e =>
    exfalso
    have h2 : (CdkTextColumn.ngOnInit w).2 = some e := by
      simp [CdkTextColumn.ngOnInit, hp]
    rw [h2] at hok
    simp at hok
  | none =>
    have hcd : c1.columnDef = w.comp.columnDef := by
      have h2 := rh_columnDef w.comp
      rw [hp] at h2
      exact h2
    have hce : c1.cell = w.comp.cell := by
      have h2 := rh_cell w.comp
      rw [hp] at h2
      exact h2
    have hhc : c1.headerCell = w.comp.headerCell := by
      have h2 := rh_headerCell w.comp
      rw [hp] at h2
      exact h2
    have hround : CdkTable.removeColumnDef
        (CdkTable.addColumnDef t { w.comp.columnDef with cell := some w.comp.cell, headerCell := some w.comp.headerCell })
        { w.comp.columnDef with cell := some w.comp.cell, headerCell := some w.comp.headerCell } = t := by
      unfold CdkTable.addColumnDef CdkTable.removeColumnDef
      cases t with
      | mk l =>
        simp only [] at hfresh ⊢
        congr 1
        rw [List.erase_append_right _ hfresh]
        simp
    simp [CdkTextColumn.ngOnInit, hp, ht, CdkTextColumn.ngOnDestroy,
          rda_columnDef, rda_cell, rda_headerCell, hcd, hce, hhc, hround]

/-- C5 (witness): name `userId`, empty host table: init succeeds and the
init-destroy round trip restores the empty registry. -/
theorem init_destroy_roundtrip_witness :
    (CdkTextColumn.ngOnInit wUserId).2 = none
    ∧ (CdkTextColumn.ngOnDestroy (CdkTextColumn.ngOnInit wUserId).1).table = wUserId.table := by
  refine ⟨rfl, ?_⟩
  exact init_destroy_roundtrip wUserId emptyTable rfl (by simp [emptyTable]) rfl

/-- C9: when `ngOnInit` throws the missing-parent-table error, the component's
own fields have already been mutated on the failing path: the post-state
component is exactly what the two defaulting steps produce, its data accessor
is a resolved function (truthy) and its header text is no longer `undefined`,
while the (absent) table side of the state is untouched — the failure is not
atomic with respect to the component's own fields. -/
theorem ngOnInit_missing_table_not_atomic (w : World)
    (herr : (CdkTextColumn.ngOnInit w).2 = some TcError.missingParentTable) :
    (CdkTextColumn.ngOnInit w).1.comp
        = CdkTextColumn.resolveDataAccessor (CdkTextColumn.resolveHeaderText w.comp).1
    ∧ ((CdkTextColumn.ngOnInit w).1.comp.dataAccessor).isTruthy = true
    ∧ (CdkTextColumn.ngOnInit w).1.comp.headerText ≠ JsStr.undef
    ∧ (CdkTextColumn.ngOnInit w).1.table = w.table := by
  rcases hp : CdkTextColumn.resolveHeaderText w.comp with ⟨c1, err⟩
  cases err with
  | some e =>
    exfalso
    have h2 : (CdkTextColumn.ngOnInit w).2 = some e := by
      simp [CdkTextColumn.ngOnInit, hp]
    rw [h2] at herr
    have h3 := rh_err_cases w.comp
    rw [hp] at h3
    simp only [Option.some.injEq] at herr
    simp at h3
    rw [h3] at herr
    simp at herr
  | none =>
    cases ht : w.table with
    | some t =>
      exfalso
      have h2 : (CdkTextColumn.ngOnInit w).2 = none := by
        simp [CdkTextColumn.ngOnInit, hp, ht]
      rw [h2] at herr
      simp at herr
    | none =>
      have hinit : (CdkTextColumn.ngOnInit w).1
          = { comp := CdkTextColumn.resolveDataAccessor c1, table := w.table } := by
        simp [CdkTextColumn.ngOnInit, hp, ht]
      have hne : (CdkTextColumn.resolveDataAccessor c1).headerText ≠ JsStr.undef := by
        rw [rda_headerText]
        have h4 := rh_success_ne_undef w.comp (by rw [hp])
        rw [hp] at h4
        exact h4
      refine ⟨?_, ?_, ?_, ?_⟩
      · simp [hinit, hp]
      · rw [hinit]
        exact rda_truthy c1
      · rw [hinit]
        exact hne
      · simp [hinit, ht]

/-- C9 (witness): explicit header text, no host table: the missing-parent
error is thrown and the post-state's accessor is already resolved. -/
theorem ngOnInit_missing_table_not_atomic_witness :
    (CdkTextColumn.ngOnInit wNoTable).2 = some TcError.missingParentTable
    ∧ ((CdkTextColumn.ngOnInit wNoTable).1.comp.dataAccessor).isTruthy = true :=
  ⟨rfl, (ngOnInit_missing_table_not_atomic wNoTable rfl).2.1⟩

/-- C10: the two defaulting checks use different emptiness tests: a header
text explicitly set to the empty string is preserved (only exactly-undefined
is replaced), while a `null` data accessor is falsy and is overwritten by the
default. -/
theorem ngOnInit_emptiness_tests_differ (w : World)
    (hh : w.comp.headerText = JsStr.str "")
    (hd : w.comp.dataAccessor = JsAccessor.null) :
    (CdkTextColumn.ngOnInit w).1.comp.headerText = JsStr.str ""
    ∧ (CdkTextColumn.ngOnInit w).1.comp.dataAccessor
        = JsAccessor.fn (w.comp._options.defaultDataAccessor.getD defaultDataAccessorFn) := by
  have hrh : CdkTextColumn.resolveHeaderText w.comp = (w.comp, none) := by
    simp [CdkTextColumn.resolveHeaderText, hh]
  constructor
  · rw [init_comp_headerText w _ hrh, hh]
  · refine init_resolves_dataAccessor w (by rw [hrh]) ?_
    rw [hd]
    rfl

/-- C10 (witness): empty-string header text survives initialization while the
`null` accessor is replaced. -/
theorem ngOnInit_emptiness_tests_differ_witness :
    wEmptyHeader.comp.headerText = JsStr.str ""
    ∧ wEmptyHeader.comp.dataAccessor = JsAccessor.null
    ∧ (CdkTextColumn.ngOnInit wEmptyHeader).1.comp.headerText = JsStr.str "" := by
  refine ⟨rfl, rfl, ?_⟩
  exact (ngOnInit_emptiness_tests_differ wEmptyHeader rfl rfl).1
